import Mathlib

/-!
Verification of the Sinterklaas media-generation wrappers: shallow embeddings
of the HeyGen video client (asset upload, job start, status polling), the
audio provider fallback, the temporary-file lifecycle of the upload staging
step, the constructor validation, and the letter text post-processor, with
theorems checking the documented behavior against these embeddings.
-/

/-- One observed answer to a status query inside the polling loop of
`_poll_for_completion` (identical control flow in `video_generator.py` and
`video_generator_v1.py`): a transport exception raised by the request, a JSON
body without a `data` key, or a `data` object with its optional `status`,
`video_url` and `error` fields. -/
inductive PollResponse where
  | exn : PollResponse
  | noData : PollResponse
  | data (status : Option String) (videoUrl : Option String) (errorMsg : Option String)
deriving DecidableEq

/-- Outcome of the polling loop: the completed branch returns
`data.get("video_url")` as is, the failed branch reports
`data.get("error", "Onbekende fout")`. -/
inductive PollOutcome where
  | completed (videoUrl : Option String)
  | failed (errorMsg : String)
deriving DecidableEq

/-- Terminal-state test of one loop iteration: the outcome when the response
carries status `completed` or `failed`, `none` when the iteration sleeps and
continues (pending, processing, waiting or unknown statuses, missing `data`,
transport exception). -/
def pollTerminal : PollResponse → Option PollOutcome
  | PollResponse.exn => none
  | PollResponse.noData => none
  | PollResponse.data status url err =>
    if status = some "completed" then some (PollOutcome.completed url)
    else if status = some "failed" then some (PollOutcome.failed (err.getD "Onbekende fout"))
    else none

/-- The loop of `_poll_for_completion` run against a finite prefix of provider
answers, one per status query: returns the outcome together with the number of
`time.sleep(5)` waits and the number of status queries performed, or `none`
when the prefix is exhausted with the loop still running. Every non-terminal
answer costs one query and one wait; a terminal answer costs one query and no
further wait. -/
def poll_for_completion : List PollResponse → Option (PollOutcome × Nat × Nat)
  | [] => none
  | r :: rest =>
    match pollTerminal r with
    | some o => some (o, 0, 1)
    | none =>
      match poll_for_completion rest with
      | some (o, w, q) => some (o, w + 1, q + 1)
      | none => none

/-- A prefix of answers none of which is terminal leaves the loop running. -/
theorem poll_for_completion_no_terminal (l : List PollResponse)
    (h : ∀ r ∈ l, pollTerminal r = none) : poll_for_completion l = none := by
  induction l with
  | nil => rfl
  | cons r rest ih =>
    have hr : pollTerminal r = none := h r (List.mem_cons_self r rest)
    have hrest := ih (fun x hx => h x (List.mem_cons_of_mem r hx))
    simp [poll_for_completion, hr, hrest]

/-- C1: on the status sequence pending, processing, completed the poller
returns the completed video URL after exactly 2 intervening waits and 3 status
queries; on the sequence processing, failed it fails with the provider error
message after exactly 1 wait, and performs exactly 2 status queries whatever
answers would follow the terminal failed one. -/
theorem c1_poller_terminal_sequences
    (u1 u2 e1 e2 : Option String) (url : Option String) (err : Option String)
    (rest : List PollResponse) :
    poll_for_completion
      [PollResponse.data (some "pending") u1 e1,
       PollResponse.data (some "processing") u2 e2,
       PollResponse.data (some "completed") url none]
      = some (PollOutcome.completed url, 2, 3)
    ∧ poll_for_completion
        (PollResponse.data (some "processing") u1 e1 ::
          PollResponse.data (some "failed") u2 err :: rest)
        = some (PollOutcome.failed (err.getD "Onbekende fout"), 1, 2) :=
  ⟨rfl, rfl⟩

/-- C4: a transport exception during a status query never terminates the loop:
it is caught, costs the same single wait, and polling resumes with the
remaining answers unchanged; a prefix of answers with no terminal status
leaves the loop running, so under an unbroken sequence of transport failures
polling continues indefinitely. -/
theorem c4_transient_transport_failures :
    (∀ rest : List PollResponse,
      poll_for_completion (PollResponse.exn :: rest)
        = (poll_for_completion rest).map (fun p => (p.1, p.2.1 + 1, p.2.2 + 1)))
    ∧ (∀ l : List PollResponse, (∀ r ∈ l, pollTerminal r = none) →
        poll_for_completion l = none)
    ∧ (∀ n : Nat, poll_for_completion (List.replicate n PollResponse.exn) = none) := by
  refine ⟨?_, poll_for_completion_no_terminal, ?_⟩
  · intro rest
    match h : poll_for_completion rest with
    | none => simp [poll_for_completion, pollTerminal, h]
    | some (o, w, q) => simp [poll_for_completion, pollTerminal, h]
  · intro n
    apply poll_for_completion_no_terminal
    intro r hr
    rw [List.eq_of_mem_replicate hr]
    rfl

/-- Concrete instance of the no-terminal part of
`c4_transient_transport_failures`: one transport failure followed by one
answer without a `data` key leaves the loop running. -/
theorem c4_transient_transport_failures_witness :
    poll_for_completion [PollResponse.exn, PollResponse.noData] = none :=
  c4_transient_transport_failures.2.1 [PollResponse.exn, PollResponse.noData] (by decide)

/-- One HTTP exchange outcome: a raised transport exception, or a response
with its status code and the identifier found in the nested response envelope
when present (`data.id` for the upload endpoint, `data.video_id` for the
job-start endpoint; `none` when the envelope or the key is missing). -/
inductive HttpResult where
  | exn : HttpResult
  | resp (statusCode : Nat) (envelopeId : Option String)
deriving DecidableEq

/-- Encoding of one upload request: a raw binary body, or a multipart form
field of the given name. The source only ever uses the raw binary body. -/
inductive UploadEncoding where
  | rawBinary : UploadEncoding
  | multipartField (name : String)
deriving DecidableEq

/-- `_upload_file_to_api` (identical response handling in `video_generator.py`
and `video_generator_v1.py`): after checking that the staged file exists and
is non-empty, performs exactly one POST with the raw binary file content as
the body, and extracts `data.id` from a 200 response; any other status code,
a malformed envelope, or an exception yields no identifier. `responses n` is
the answer the provider would give to the n-th request of the call; the first
component of the result lists the encodings actually attempted, in order. -/
def upload_file_to_api (fileExists : Bool) (fileSize : Nat)
    (responses : Nat → HttpResult) : List UploadEncoding × Option String :=
  if fileExists = false then ([], none)
  else if fileSize = 0 then ([], none)
  else
    match responses 0 with
    | HttpResult.exn => ([UploadEncoding.rawBinary], none)
    | HttpResult.resp code envId =>
      ([UploadEncoding.rawBinary], if code = 200 then envId else none)

/-- C2 fails on the code: on a 400 rejection of the raw-binary encoding, with
a success available for a hypothetical second request, the upload still makes
exactly one attempt — it never tries a next candidate encoding. -/
theorem c2_counterexample :
    (upload_file_to_api true 1
        (fun n => if n = 0 then HttpResult.resp 400 none else HttpResult.resp 200 (some "a"))).1
      = [UploadEncoding.rawBinary]
    ∧ ¬ 2 ≤ (upload_file_to_api true 1
        (fun n => if n = 0 then HttpResult.resp 400 none else HttpResult.resp 200 (some "a"))).1.length := by
  exact ⟨rfl, by decide⟩

/-- C2 amended: the upload constructs exactly one request, always with the raw
binary body encoding and never a multipart one; on a client-level rejection —
any non-200 answer, 4xx included — it fails at once without trying any
further candidate encoding. -/
theorem c2_single_raw_binary_attempt (fileExists : Bool) (fileSize : Nat)
    (responses : Nat → HttpResult) :
    ((upload_file_to_api fileExists fileSize responses).1 = []
      ∨ (upload_file_to_api fileExists fileSize responses).1 = [UploadEncoding.rawBinary])
    ∧ (∀ code envId, fileSize ≠ 0 →
        responses 0 = HttpResult.resp code envId → code ≠ 200 →
        upload_file_to_api true fileSize responses
          = ([UploadEncoding.rawBinary], none)) := by
  constructor
  · by_cases he : fileExists = false
    · simp [upload_file_to_api, he]
    · by_cases hs : fileSize = 0
      · simp [upload_file_to_api, he, hs]
      · match hr : responses 0 with
        | HttpResult.exn => simp [upload_file_to_api, he, hs, hr]
        | HttpResult.resp code envId => simp [upload_file_to_api, he, hs, hr]
  · intro code envId hs hr hc
    simp [upload_file_to_api, hs, hr, hc]

/-- Concrete instance of `c2_single_raw_binary_attempt`: a 404 answer makes
the call fail after its single raw-binary attempt. -/
theorem c2_single_raw_binary_attempt_witness :
    upload_file_to_api true 1 (fun _ => HttpResult.resp 404 none)
      = ([UploadEncoding.rawBinary], none) :=
  (c2_single_raw_binary_attempt true 1 (fun _ => HttpResult.resp 404 none)).2
    404 none (by decide) rfl (by decide)

/-- C3 fails on the code: with a non-empty staged payload and a 200 answer
whose envelope carries an empty `data.id`, the upload returns the empty
string — it neither fails nor returns a non-empty identifier, because the
extracted identifier is passed through without any emptiness check. -/
theorem c3_counterexample :
    ¬ ((upload_file_to_api true 1 (fun _ => HttpResult.resp 200 (some ""))).2 = none
       ∨ ∃ s, (upload_file_to_api true 1 (fun _ => HttpResult.resp 200 (some ""))).2 = some s
              ∧ s ≠ "") := by
  intro h
  have hval : (upload_file_to_api true 1 (fun _ => HttpResult.resp 200 (some ""))).2
      = some "" := rfl
  rcases h with h | ⟨s, hs, hne⟩
  · rw [hval] at h
    cases h
  · rw [hval] at hs
    exact hne (Option.some.inj hs).symm

/-- C3 amended: for every non-empty staged payload the upload either fails or
returns exactly the identifier string found at `data.id` of the 200 success
envelope, unchanged — so the result is non-empty whenever that envelope
identifier is non-empty, but an empty envelope identifier is passed through as
an empty returned identifier. -/
theorem c3_identifier_passthrough (fileSize : Nat) (responses : Nat → HttpResult)
    (h : fileSize ≠ 0) :
    ((upload_file_to_api true fileSize responses).2 = none
      ∨ ∃ s, (upload_file_to_api true fileSize responses).2 = some s
             ∧ responses 0 = HttpResult.resp 200 (some s))
    ∧ (∀ s, responses 0 = HttpResult.resp 200 (some s) →
        (upload_file_to_api true fileSize responses).2 = some s) := by
  constructor
  · match hr : responses 0 with
    | HttpResult.exn => left; simp [upload_file_to_api, h, hr]
    | HttpResult.resp code envId =>
      by_cases hc : code = 200
      · match envId with
        | none => left; simp [upload_file_to_api, h, hr, hc]
        | some s =>
          subst hc
          right
          exact ⟨s, by simp [upload_file_to_api, h, hr], rfl⟩
      · left; simp [upload_file_to_api, h, hr, hc]
  · intro s hr
    simp [upload_file_to_api, h, hr]

/-- Concrete instance of `c3_identifier_passthrough`: a 200 envelope with a
non-empty identifier is returned as that identifier. -/
theorem c3_identifier_passthrough_witness :
    (upload_file_to_api true 1 (fun _ => HttpResult.resp 200 (some "asset"))).2
      = some "asset" :=
  (c3_identifier_passthrough 1 (fun _ => HttpResult.resp 200 (some "asset"))
    (by decide)).2 "asset" rfl

/-- `_start_generation_v2` and `_start_generation_v1` response handling (both
are identical at this level): the generation payload is posted once, and
`data.video_id` is extracted from a 200 response; any other status code, a
missing identifier, or a transport exception yields no job handle. -/
def start_generation_v2 (r : HttpResult) : Option String :=
  match r with
  | HttpResult.exn => none
  | HttpResult.resp code videoId => if code = 200 then videoId else none

/-- C6 fails on the code: a 201 response, which is 2xx, carrying
`data.video_id` is not accepted — the start call only accepts the status code
exactly 200. -/
theorem c6_counterexample :
    (200 ≤ 201 ∧ 201 < 300)
    ∧ ¬ start_generation_v2 (HttpResult.resp 201 (some "vid")) = some "vid" := by
  decide

/-- C6 amended: the start call returns a handle exactly when the response has
status code exactly 200 — not any 2xx — and its envelope carries the
`data.video_id` identifier; it fails on every other status code, on a success
envelope missing the identifier, and on an exception, also when the job start
follows a successful upload of the referenced asset. -/
theorem c6_job_start (r : HttpResult) (h : String) :
    (start_generation_v2 r = some h ↔ r = HttpResult.resp 200 (some h))
    ∧ (∀ fileSize responses assetId,
        (upload_file_to_api true fileSize responses).2 = some assetId →
        start_generation_v2 (HttpResult.resp 200 none) = none) := by
  constructor
  · match r with
    | HttpResult.exn => simp [start_generation_v2]
    | HttpResult.resp code videoId =>
      by_cases hc : code = 200
      · subst hc
        simp [start_generation_v2]
      · simp [start_generation_v2, hc]
  · intro fileSize responses assetId hup
    rfl

/-- Concrete instance of `c6_job_start`: a 200 answer with the identifier is
accepted, and after a successful upload a 200 answer missing `video_id` is
rejected. -/
theorem c6_job_start_witness :
    start_generation_v2 (HttpResult.resp 200 (some "vid")) = some "vid"
    ∧ start_generation_v2 (HttpResult.resp 200 none) = none :=
  ⟨(c6_job_start (HttpResult.resp 200 (some "vid")) "vid").1.mpr rfl,
   (c6_job_start (HttpResult.resp 200 (some "vid")) "vid").2 1
     (fun _ => HttpResult.resp 200 (some "a")) "a" rfl⟩

/-- Whitespace set of Python `str.strip`, `str.split` and the regex class
`\s`, restricted to its ASCII part, which is all the inputs of this
repository use. -/
def pyIsSpace (c : Char) : Bool :=
  c == ' ' || c == '\t' || c == '\n' || c == '\r' || c == '\x0b' || c == '\x0c'

/-- Python `str.strip()` on a character list: whitespace dropped from both
ends. -/
def pyStripList (s : List Char) : List Char :=
  ((s.dropWhile pyIsSpace).reverse.dropWhile pyIsSpace).reverse

/-- Python `str.strip()` on a string. -/
def pyStrip (s : String) : String := String.mk (pyStripList s.data)

/-- Python `str.lower()`. -/
def pyLower (s : String) : String := String.mk (s.data.map Char.toLower)

/-- The stripped list is empty exactly when every character is whitespace. -/
theorem pyStripList_eq_nil_iff (s : List Char) :
    pyStripList s = [] ↔ ∀ c ∈ s, pyIsSpace c = true := by
  unfold pyStripList
  rw [List.reverse_eq_nil_iff, List.dropWhile_eq_nil_iff]
  constructor
  · intro h c hc
    have hsplit : s.takeWhile pyIsSpace ++ s.dropWhile pyIsSpace = s :=
      List.takeWhile_append_dropWhile pyIsSpace s
    rw [← hsplit] at hc
    rcases List.mem_append.mp hc with hc | hc
    · exact List.mem_takeWhile_imp hc
    · exact h c (List.mem_reverse.mpr hc)
  · intro h c hc
    exact h c ((List.dropWhile_suffix pyIsSpace).sublist.subset (List.mem_reverse.mp hc))

/-- Fields of `VideoGenerator` set by its constructor. -/
structure VideoGenerator where
  apiKey : String
  avatarId : String
deriving DecidableEq

/-- Fields of `VideoGeneratorV1` set by its constructor that the claims
concern (api key, avatar id and the normalized avatar type; the remaining
keyword fields are stored verbatim). -/
structure VideoGeneratorV1 where
  apiKey : String
  avatarId : String
  avatarType : String
deriving DecidableEq

/-- `VideoGenerator.__init__`: raises ValueError on a falsy — that is, empty —
api key or avatar id, otherwise stores both stripped. -/
def initVideoGenerator (apiKey avatarId : String) : Except String VideoGenerator :=
  if apiKey = "" then Except.error "HeyGen API key is vereist"
  else if avatarId = "" then Except.error "Avatar ID is vereist voor deze V2 implementatie"
  else Except.ok ⟨pyStrip apiKey, pyStrip avatarId⟩

/-- `VideoGeneratorV1.__init__`: the same falsy checks with the v1 messages,
then the stripped fields, with the lowered avatar type replaced by `avatar`
when it is neither `avatar` nor `photo`. -/
def initVideoGeneratorV1 (apiKey avatarId avatarType : String) :
    Except String VideoGeneratorV1 :=
  if apiKey = "" then Except.error "HeyGen API key is vereist"
  else if avatarId = "" then Except.error "Avatar of photo ID is vereist voor de v1 implementatie"
  else
    Except.ok ⟨pyStrip apiKey, pyStrip avatarId,
      if pyLower avatarType = "avatar" || pyLower avatarType = "photo" then
        pyLower avatarType
      else "avatar"⟩

/-- The stripped string is non-empty exactly when the original string holds a
non-whitespace character. -/
theorem pyStrip_ne_empty_iff (s : String) :
    pyStrip s ≠ "" ↔ ∃ c ∈ s.data, pyIsSpace c = false := by
  rw [not_iff_comm]
  push_neg
  constructor
  · intro h
    have hall : ∀ c ∈ s.data, pyIsSpace c = true := by
      intro c hc
      have := h c hc
      simpa using this
    unfold pyStrip
    rw [(pyStripList_eq_nil_iff s.data).mpr hall]
  · intro h c hc
    have hnil : pyStripList s.data = [] := by
      unfold pyStrip at h
      have hdata : (String.mk (pyStripList s.data)).data = ("" : String).data := by
        rw [h]
      simpa using hdata
    have := (pyStripList_eq_nil_iff s.data).mp hnil c hc
    simp [this]

/-- Result of the `generate` orchestration shared by both client versions:
empty audio fails at once; a falsy — missing or empty — asset id from the
upload step or job id from the start step fails before the next step; an
observed poll outcome is returned as the Python Optional result (the URL on
completed, no URL on failed), and the outer `none` stands for a poll prefix
exhausted with the loop still running. -/
def videoGenerator_generate_result (audioSize : Nat)
    (uploadResponses : Nat → HttpResult) (startResponse : HttpResult)
    (pollResponses : List PollResponse) : Option (Option String) :=
  if audioSize = 0 then some none
  else
    match (upload_file_to_api true audioSize uploadResponses).2 with
    | none => some none
    | some assetId =>
      if assetId = "" then some none
      else
        match start_generation_v2 startResponse with
        | none => some none
        | some videoId =>
          if videoId = "" then some none
          else
            match poll_for_completion pollResponses with
            | none => none
            | some (PollOutcome.completed url, _, _) => some url
            | some (PollOutcome.failed _, _, _) => some none

/-- `VideoGenerator.generate`, the only public operation of the V2 client,
composing upload, job start and polling; the instance travels alongside the
result because no method of the class assigns to `self.api_key` or
`self.avatar_id` after `__init__` — the credential and avatar id only enter
outgoing request headers and payloads, which the response environments
abstract. -/
def videoGenerator_generate (g : VideoGenerator) (audioSize : Nat)
    (uploadResponses : Nat → HttpResult) (startResponse : HttpResult)
    (pollResponses : List PollResponse) : VideoGenerator × Option (Option String) :=
  (g, videoGenerator_generate_result audioSize uploadResponses startResponse pollResponses)

/-- `VideoGeneratorV1.generate`, the only public operation of the v1 client,
with the same orchestration shape (empty-audio check, upload, falsy-id checks,
job start, polling) and likewise no assignment to any field after
`__init__`. -/
def videoGeneratorV1_generate (g : VideoGeneratorV1) (audioSize : Nat)
    (uploadResponses : Nat → HttpResult) (startResponse : HttpResult)
    (pollResponses : List PollResponse) : VideoGeneratorV1 × Option (Option String) :=
  (g, videoGenerator_generate_result audioSize uploadResponses startResponse pollResponses)

/-- C10 fails on the code: an api key consisting of a single space is truthy,
so construction succeeds, and stripping then leaves an empty stored api key —
the constructed instance does not hold a non-empty key. -/
theorem c10_counterexample :
    initVideoGenerator " " "x" = Except.ok ⟨"", "x"⟩
    ∧ ¬ (∀ g : VideoGenerator, initVideoGenerator " " "x" = Except.ok g →
          g.apiKey ≠ "") := by
  refine ⟨rfl, ?_⟩
  intro h
  exact h ⟨"", "x"⟩ rfl rfl

/-- C10 amended: construction raises ValueError exactly on an empty api key
or, that being non-empty, an empty avatar id, identically in both client
versions; a successfully constructed instance of either version stores the
whitespace-stripped key and avatar id, each non-empty exactly when the given
string contains a non-whitespace character — an all-whitespace argument is
accepted but stored as the empty string — and these stored fields are left
unchanged by every subsequent `generate` call on the instance, so what
construction establishes persists across all operations. -/
theorem c10_constructor_validation (k a t : String) :
    (k = "" →
      initVideoGenerator k a = Except.error "HeyGen API key is vereist"
      ∧ initVideoGeneratorV1 k a t = Except.error "HeyGen API key is vereist")
    ∧ (k ≠ "" → a = "" →
        initVideoGenerator k a
          = Except.error "Avatar ID is vereist voor deze V2 implementatie"
        ∧ initVideoGeneratorV1 k a t
          = Except.error "Avatar of photo ID is vereist voor de v1 implementatie")
    ∧ (k ≠ "" → a ≠ "" →
        initVideoGenerator k a = Except.ok ⟨pyStrip k, pyStrip a⟩
        ∧ initVideoGeneratorV1 k a t
            = Except.ok ⟨pyStrip k, pyStrip a,
                if pyLower t = "avatar" || pyLower t = "photo" then pyLower t
                else "avatar"⟩)
    ∧ (∀ g, initVideoGenerator k a = Except.ok g →
        g.apiKey = pyStrip k ∧ g.avatarId = pyStrip a
        ∧ (g.apiKey ≠ "" ↔ ∃ c ∈ k.data, pyIsSpace c = false)
        ∧ (g.avatarId ≠ "" ↔ ∃ c ∈ a.data, pyIsSpace c = false))
    ∧ (∀ g, initVideoGeneratorV1 k a t = Except.ok g →
        g.apiKey = pyStrip k ∧ g.avatarId = pyStrip a
        ∧ (g.apiKey ≠ "" ↔ ∃ c ∈ k.data, pyIsSpace c = false)
        ∧ (g.avatarId ≠ "" ↔ ∃ c ∈ a.data, pyIsSpace c = false))
    ∧ (∀ (g : VideoGenerator) audioSize uploadResponses startResponse pollResponses,
        (videoGenerator_generate g audioSize uploadResponses startResponse
          pollResponses).1 = g)
    ∧ (∀ (g : VideoGeneratorV1) audioSize uploadResponses startResponse pollResponses,
        (videoGeneratorV1_generate g audioSize uploadResponses startResponse
          pollResponses).1 = g) := by
  refine ⟨?_, ?_, ?_, ?_, ?_, ?_, ?_⟩
  · intro hk
    constructor <;> simp [initVideoGenerator, initVideoGeneratorV1, hk]
  · intro hk ha
    constructor <;> simp [initVideoGenerator, initVideoGeneratorV1, hk, ha]
  · intro hk ha
    constructor <;> simp [initVideoGenerator, initVideoGeneratorV1, hk, ha]
  · intro g hg
    by_cases hk : k = ""
    · simp [initVideoGenerator, hk] at hg
    · by_cases ha : a = ""
      · simp [initVideoGenerator, hk, ha] at hg
      · simp [initVideoGenerator, hk, ha] at hg
        subst hg
        exact ⟨rfl, rfl, pyStrip_ne_empty_iff k, pyStrip_ne_empty_iff a⟩
  · intro g hg
    by_cases hk : k = ""
    · simp [initVideoGeneratorV1, hk] at hg
    · by_cases ha : a = ""
      · simp [initVideoGeneratorV1, hk, ha] at hg
      · simp [initVideoGeneratorV1, hk, ha] at hg
        subst hg
        exact ⟨rfl, rfl, pyStrip_ne_empty_iff k, pyStrip_ne_empty_iff a⟩
  · intro g audioSize uploadResponses startResponse pollResponses
    rfl
  · intro g audioSize uploadResponses startResponse pollResponses
    rfl

/-- Concrete instances of `c10_constructor_validation`: an empty key is
rejected, a key with surrounding whitespace is stored stripped in both
versions with the v1 avatar type lowered, and a `generate` call leaves the
constructed v2 instance unchanged. -/
theorem c10_constructor_validation_witness :
    initVideoGenerator "" "x" = Except.error "HeyGen API key is vereist"
    ∧ initVideoGenerator " key " "av" = Except.ok ⟨"key", "av"⟩
    ∧ initVideoGeneratorV1 " key " "av" "PHOTO" = Except.ok ⟨"key", "av", "photo"⟩
    ∧ (videoGenerator_generate ⟨"key", "av"⟩ 3 (fun _ => HttpResult.exn)
        HttpResult.exn []).1 = ⟨"key", "av"⟩ :=
  ⟨((c10_constructor_validation "" "x" "avatar").1 rfl).1,
   (((c10_constructor_validation " key " "av" "avatar").2.2.1
      (by decide) (by decide)).1).trans (by rfl),
   (((c10_constructor_validation " key " "av" "PHOTO").2.2.1
      (by decide) (by decide)).2).trans (by rfl),
   (c10_constructor_validation " key " "av" "avatar").2.2.2.2.2.1
     ⟨"key", "av"⟩ 3 (fun _ => HttpResult.exn) HttpResult.exn []⟩

/-- Configuration of `AudioGenerator` after `__init__`: whether the ElevenLabs
client was constructed, the stored voice id, and whether the OpenAI client was
constructed. -/
structure AudioGenConfig where
  elevenlabsClient : Bool
  elevenlabsVoiceId : Option String
  openaiClient : Bool

/-- Behavior of the external services during one run: the outcome of the
ElevenLabs synthesis call, the outcome of the OpenAI speech call (errors
model raised exceptions), and the pydub padding step, which is total because
`_add_silence_padding` returns the original audio when padding fails. Audio
byte buffers are modelled as byte lists. -/
structure AudioEnv where
  elevenlabsConvert : String → Except String (List Nat)
  openaiSpeechCreate : String → Except String (List Nat)
  addSilencePadding : List Nat → List Nat

/-- Python truthiness of an optional string: false for None and for the empty
string. -/
def pyTruthyStrOpt : Option String → Bool
  | none => false
  | some s => !(s == "")

/-- `_generate_openai`: raises when the OpenAI client is missing, otherwise
returns the padded speech bytes, propagating a failure of the speech call. -/
def generate_openai (cfg : AudioGenConfig) (env : AudioEnv) (text : String) :
    Except String (List Nat) :=
  if cfg.openaiClient = false then Except.error "OpenAI client niet geïnitialiseerd"
  else
    match env.openaiSpeechCreate text with
    | Except.error e => Except.error e
    | Except.ok audio => Except.ok (env.addSilencePadding audio)

/-- `_generate_elevenlabs`: raises when the client or a truthy voice id is
missing, otherwise returns the padded synthesis bytes, propagating a failure
of the conversion call. -/
def generate_elevenlabs (cfg : AudioGenConfig) (env : AudioEnv) (text : String) :
    Except String (List Nat) :=
  if cfg.elevenlabsClient = false then Except.error "ElevenLabs client niet geïnitialiseerd"
  else if pyTruthyStrOpt cfg.elevenlabsVoiceId = false then
    Except.error "ElevenLabs Voice ID niet gevonden"
  else
    match env.elevenlabsConvert text with
    | Except.error e => Except.error e
    | Except.ok audio => Except.ok (env.addSilencePadding audio)

/-- `AudioGenerator.generate`: when ElevenLabs is preferred and configured,
attempt it and on any failure fall back to the OpenAI path when that client is
configured, else re-raise wrapped; otherwise use the OpenAI path directly when
configured; else raise that no engine is available. -/
def audio_generate (cfg : AudioGenConfig) (env : AudioEnv) (text : String)
    (preferElevenlabs : Bool) : Except String (List Nat) :=
  if preferElevenlabs && cfg.elevenlabsClient && pyTruthyStrOpt cfg.elevenlabsVoiceId then
    match generate_elevenlabs cfg env text with
    | Except.ok audio => Except.ok audio
    | Except.error msg =>
      if cfg.openaiClient then generate_openai cfg env text
      else Except.error ("ElevenLabs fout en geen OpenAI fallback: " ++ msg)
  else if cfg.openaiClient then generate_openai cfg env text
  else Except.error "Geen audio engine beschikbaar. Configureer ElevenLabs of OpenAI API key."

/-- C5: when ElevenLabs is preferred and configured with a truthy voice id but
its attempt fails, and the OpenAI client is configured, the fallback selector
returns exactly what invoking the OpenAI path alone produces for the same
text. -/
theorem c5_fallback_matches_secondary (cfg : AudioGenConfig) (env : AudioEnv)
    (text : String) (msg : String)
    (hc : cfg.elevenlabsClient = true)
    (hv : pyTruthyStrOpt cfg.elevenlabsVoiceId = true)
    (hf : generate_elevenlabs cfg env text = Except.error msg)
    (ho : cfg.openaiClient = true) :
    audio_generate cfg env text true = generate_openai cfg env text := by
  simp [audio_generate, hc, hv, hf, ho]

/-- Concrete instance of `c5_fallback_matches_secondary`: a failing ElevenLabs
call with a configured OpenAI client falls back to the OpenAI result. -/
theorem c5_fallback_matches_secondary_witness :
    audio_generate ⟨true, some "v", true⟩
        ⟨fun _ => Except.error "down", fun _ => Except.ok [1, 2, 3], id⟩ "dag" true
      = generate_openai ⟨true, some "v", true⟩
        ⟨fun _ => Except.error "down", fun _ => Except.ok [1, 2, 3], id⟩ "dag" :=
  c5_fallback_matches_secondary ⟨true, some "v", true⟩
    ⟨fun _ => Except.error "down", fun _ => Except.ok [1, 2, 3], id⟩ "dag" "down"
    rfl rfl rfl rfl

/-- Exit taken by the body of the try block in `_upload_asset`: the empty-data
early return, a return with the result of the upload helper, or an exception
escaping the block. -/
inductive AssetBodyExit where
  | emptyData : AssetBodyExit
  | apiReturn (r : Option String)
  | raised : AssetBodyExit
deriving DecidableEq

/-- `_upload_asset` with the temporary-file lifecycle made explicit: the pair
holds the outcome of the call (`Except.error ()` propagates an exception) and
whether the temporary staging file still exists once the call is over. The
temporary file is created before the try block, so it exists throughout the
body; the finally block removes it when it exists. -/
def upload_asset_tempfile (exit : AssetBodyExit) : Except Unit (Option String) × Bool :=
  let tempExistsAfterBody := true
  let bodyResult : Except Unit (Option String) :=
    match exit with
    | AssetBodyExit.emptyData => Except.ok none
    | AssetBodyExit.apiReturn r => Except.ok r
    | AssetBodyExit.raised => Except.error ()
  let tempExistsAfterFinally := if tempExistsAfterBody then false else tempExistsAfterBody
  (bodyResult, tempExistsAfterFinally)

/-- C9: on every exit path of the upload staging call — success, provider
error (the helper returning no identifier), empty payload and exception — the
temporary staging file no longer exists after the finally block ran. -/
theorem c9_tempfile_removed_on_every_exit (exit : AssetBodyExit) :
    (upload_asset_tempfile exit).2 = false := rfl

/-- Sentence-ending characters of the splitting regex class. -/
def pySentEnd (c : Char) : Bool := c == '.' || c == '!' || c == '?'

/-- Helper of `pyWords`: one pass over the text, `cur` holding the reversed
current word. -/
def pyWordsAux (cur : List Char) : List Char → List (List Char)
  | [] => if cur.isEmpty then [] else [cur.reverse]
  | c :: rest =>
    if pyIsSpace c then
      if cur.isEmpty then pyWordsAux [] rest
      else cur.reverse :: pyWordsAux [] rest
    else pyWordsAux (c :: cur) rest

/-- Python `str.split()` without arguments: maximal whitespace runs separate
the words and produce no empty pieces. -/
def pyWords (s : List Char) : List (List Char) := pyWordsAux [] s

/-- Python `' '.join` on character lists. -/
def joinSpaces : List (List Char) → List Char
  | [] => []
  | [w] => w
  | w :: ws => w ++ ' ' :: joinSpaces ws

/-- The whitespace normalization step `' '.join(text.split()).strip()`. -/
def normalize_whitespace (s : List Char) : List Char :=
  pyStripList (joinSpaces (pyWords s))

/-- Case-insensitive literal match consuming the pattern from the front of the
text and returning the rest, or nothing when the text does not start with the
pattern. -/
def matchLitCI : List Char → List Char → Option (List Char)
  | [], s => some s
  | _ :: _, [] => none
  | p :: ps, c :: cs => if c.toLower == p.toLower then matchLitCI ps cs else none

/-- Greedy run of the regex class `[,\s]*`, maximal because in every closing
pattern the literal that follows starts with a letter outside the class. -/
def skipCommaSpace (s : List Char) : List Char :=
  s.dropWhile (fun c => c == ',' || pyIsSpace c)

/-- Front match of the first closing pattern, tot gauw then hoogachtend then
sinterklaas, the three literals joined by `[,\s]*` runs; all three patterns
are applied with the IGNORECASE flag, which subsumes their bracketed
first letters. -/
def matchClosing1 (s : List Char) : Option (List Char) :=
  (matchLitCI "tot gauw".data s).bind fun s1 =>
    (matchLitCI "hoogachtend".data (skipCommaSpace s1)).bind fun s2 =>
      matchLitCI "sinterklaas".data (skipCommaSpace s2)

/-- Front match of the second closing pattern, tot gauw then hoogachtend. -/
def matchClosing2 (s : List Char) : Option (List Char) :=
  (matchLitCI "tot gauw".data s).bind fun s1 =>
    matchLitCI "hoogachtend".data (skipCommaSpace s1)

/-- Front match of the third closing pattern, hoogachtend then sinterklaas. -/
def matchClosing3 (s : List Char) : Option (List Char) :=
  (matchLitCI "hoogachtend".data s).bind fun s1 =>
    matchLitCI "sinterklaas".data (skipCommaSpace s1)

/-- Driver of Python `re.sub(pattern, '', text)`: scans left to right, removes
each leftmost non-overlapping match and continues right after it. The matcher
returns the text remaining after a match at the current position. `fuel`
bounds the number of scan steps; it starts at the text length, which always
suffices because every closing pattern consumes at least one character. -/
def reSubEmptyAux (m : List Char → Option (List Char)) : Nat → List Char → List Char
  | _, [] => []
  | 0, s => s
  | fuel + 1, c :: rest =>
    match m (c :: rest) with
    | some rem =>
      if rem.length ≤ fuel then reSubEmptyAux m fuel rem
      else c :: reSubEmptyAux m fuel rest
    | none => c :: reSubEmptyAux m fuel rest

/-- Python `re.sub(pattern, '', text)` for a matcher that consumes at least
one character. -/
def reSubEmpty (m : List Char → Option (List Char)) (s : List Char) : List Char :=
  reSubEmptyAux m s.length s

/-- The closing removal of `_process_text`: the three `re.sub` calls applied
in the order of the `closing_patterns` list. -/
def strip_closings (s : List Char) : List Char :=
  reSubEmpty matchClosing3 (reSubEmpty matchClosing2 (reSubEmpty matchClosing1 s))

/-- Core of the sentence splitting of `_process_text`:
`re.split('([.!?]\s+)', text)` followed by the loop re-attaching each captured
separator to the piece before it. The text is cut right after each
sentence-ending character followed by a maximal whitespace run; the final
piece is whatever remains, an empty piece included when the text ends in such
a separator, exactly as the odd-length result of `re.split` yields. `acc`
holds the reversed current piece and `inSep` tells whether the scan stands
inside the whitespace run of a separator. -/
def splitSentencesAux (acc : List Char) (inSep : Bool) : List Char → List (List Char)
  | [] => if inSep then [acc.reverse, []] else [acc.reverse]
  | c :: rest =>
    if inSep then
      if pyIsSpace c then splitSentencesAux (c :: acc) true rest
      else acc.reverse :: splitSentencesAux [c] false rest
    else
      if pyIsSpace c && (match acc.head? with | some p => pySentEnd p | none => false) then
        splitSentencesAux (c :: acc) true rest
      else splitSentencesAux (c :: acc) false rest

/-- The `combined_sentences` list of `_process_text`: the re-attached pieces,
each stripped, the empty ones dropped. -/
def combined_sentences (s : List Char) : List (List Char) :=
  ((splitSentencesAux [] false s).map pyStripList).filter (fun w => !w.isEmpty)

/-- Python `str.rstrip(',')`: every trailing comma removed. -/
def rstripComma (s : List Char) : List Char :=
  (s.reverse.dropWhile (fun c => c == ',')).reverse

/-- The paragraph grouping of `_process_text` over the body sentences: at most
2 give one paragraph, 3 or 4 give two, 5 or more give three of sentence
counts 2, 2 and the rest. -/
def group_paragraphs (body : List (List Char)) : List (List Char) :=
  if body.length ≤ 2 then [joinSpaces body]
  else if body.length ≤ 4 then
    [joinSpaces (body.take 2), joinSpaces (body.drop 2)]
  else
    [joinSpaces (body.take 2), joinSpaces ((body.drop 2).take 2),
     joinSpaces (body.drop 4)]

/-- The body sentences of a letter text: every combined sentence after the
first one. -/
def body_sentences (text : String) : List (List Char) :=
  (combined_sentences (normalize_whitespace (strip_closings text.data))).tail

/-- `_process_text`: the salutation — the first combined sentence with its
trailing commas stripped, or None when there is none — and the grouped body
paragraphs. -/
def process_text (text : String) : Option String × List String :=
  ((combined_sentences (normalize_whitespace (strip_closings text.data))).head?.map
      (fun g => String.mk (rstripComma g)),
   (group_paragraphs (body_sentences text)).map String.mk)

/-- The fixed closing block that `_build_html` appends unconditionally. -/
def closingBlockLines : List String :=
  ["        <p class=\"closing\">Tot gauw</p>",
   "        <p class=\"signature-line\">Hoogachtend</p>",
   "        <p class=\"signature-name\">Sinterklaas</p>"]

/-- The paragraph assembly of `_build_html`: the greeting line when the
greeting is truthy, one line per paragraph that is non-blank after stripping,
numbered by its 1-based position in the original list, then the fixed closing
block. -/
def build_paragraphs_html (greeting : Option String) (paragraphs : List String) :
    List String :=
  (match greeting with
   | some g => if g == "" then [] else ["        <p class=\"greeting\">" ++ g ++ "</p>"]
   | none => []) ++
  (((paragraphs.enumFrom 1).filter (fun ip => !(pyStripList ip.2.data).isEmpty)).map
    (fun ip => "        <p class=\"paragraph-" ++ toString ip.1 ++ "\">" ++ ip.2 ++ "</p>")) ++
  closingBlockLines

/-- C7 fails on the code: processing the empty string yields a paragraphs list
holding one empty string, not the empty sequence — the single-paragraph branch
joins the zero body sentences into an empty paragraph. -/
theorem c7_counterexample : ¬ (process_text "").2 = ([] : List String) := by
  intro h
  have hval : (process_text "").2 = [""] := rfl
  rw [hval] at h
  simp at h

/-- C7 amended: processing the empty string yields salutation None and a
paragraphs list holding exactly one empty string; that blank paragraph is
dropped at render time, so the rendered lines are exactly the fixed closing
block and nothing else. -/
theorem c7_empty_input :
    process_text "" = (none, [""])
    ∧ build_paragraphs_html (process_text "").1 (process_text "").2
        = closingBlockLines :=
  ⟨rfl, rfl⟩

/-- C8: the processed paragraphs are exactly the grouping of the body
sentences, the salutation is the first combined sentence with trailing commas
stripped, and the grouping obeys the fixed thresholds: at most 2 body
sentences give one paragraph — a single body sentence giving exactly that
sentence — 3 or 4 give two paragraphs of at most 2 sentences each, and 5 or
more give three paragraphs of sentence counts 2, 2 and the remainder, so 6
body sentences give counts 2, 2 and 2. -/
theorem c8_paragraph_grouping (text : String) :
    ((process_text text).2 = (group_paragraphs (body_sentences text)).map String.mk
      ∧ (process_text text).1
          = (combined_sentences (normalize_whitespace
              (strip_closings text.data))).head?.map
            (fun g => String.mk (rstripComma g)))
    ∧ ∀ body : List (List Char),
      (body.length ≤ 2 → group_paragraphs body = [joinSpaces body])
      ∧ (∀ s, body = [s] → group_paragraphs body = [s])
      ∧ (3 ≤ body.length → body.length ≤ 4 →
          group_paragraphs body
            = [joinSpaces (body.take 2), joinSpaces (body.drop 2)]
          ∧ (body.take 2).length = 2
          ∧ 1 ≤ (body.drop 2).length ∧ (body.drop 2).length ≤ 2)
      ∧ (5 ≤ body.length →
          group_paragraphs body
            = [joinSpaces (body.take 2), joinSpaces ((body.drop 2).take 2),
               joinSpaces (body.drop 4)]
          ∧ (body.take 2).length = 2 ∧ ((body.drop 2).take 2).length = 2
          ∧ (body.drop 4).length = body.length - 4)
      ∧ (body.length = 6 → (body.drop 4).length = 2) := by
  refine ⟨⟨?_, ?_⟩, ?_⟩
  · unfold process_text
    with_reducible rfl
  · unfold process_text
    with_reducible rfl
  intro body
  refine ⟨?_, ?_, ?_, ?_, ?_⟩
  · intro h
    simp [group_paragraphs, h]
  · intro s hs
    subst hs
    simp [group_paragraphs, joinSpaces]
  · intro h3 h4
    have h2 : ¬ body.length ≤ 2 := by omega
    refine ⟨by simp [group_paragraphs, h2, h4], ?_, ?_, ?_⟩
    · rw [List.length_take]; omega
    · rw [List.length_drop]; omega
    · rw [List.length_drop]; omega
  · intro h5
    have h2 : ¬ body.length ≤ 2 := by omega
    have h4 : ¬ body.length ≤ 4 := by omega
    refine ⟨by simp [group_paragraphs, h2, h4], ?_, ?_, ?_⟩
    · rw [List.length_take]; omega
    · rw [List.length_take, List.length_drop]; omega
    · rw [List.length_drop]
  · intro h6
    rw [List.length_drop, h6]

/-- Concrete instance of `c8_paragraph_grouping`: six one-character body
sentences are grouped into three space-joined paragraphs of two sentences
each. -/
theorem c8_paragraph_grouping_witness :
    group_paragraphs [['a'], ['b'], ['c'], ['d'], ['e'], ['f']]
      = [['a', ' ', 'b'], ['c', ' ', 'd'], ['e', ' ', 'f']] :=
  (((c8_paragraph_grouping "").2 [['a'], ['b'], ['c'], ['d'], ['e'], ['f']]).2.2.2.1
    (by decide)).1.trans (by decide)
